import Mathlib

/-!
Verification of the spyglass crawl-scheduler core against its specification.

Shallow embedding of the relevant Rust sources:
  - crates/spyglass/src/plugin/exports.rs  (plugin host functions)
  - crates/spyglass/src/api/route.rs       (RPC handlers)
  - crates/shared/src/config.rs            (Limit, UserSettings, Lens, Config)
  - crates/spyglass/src/state.rs           (AppState construction)

The crawl-queue entity module (crates/entities/src/models/crawl_queue.rs) is
not part of the provided sources; the functions it exports (enqueue_all,
num_queued) and the uniqueness constraint on the url column are modelled from
the specification and marked as such in their doc comments.
-/

namespace Spyglass

/-! ## Path model

Rust `std::path::Path` operations used by the plugin host, modelled on
character lists so that component-level facts (a component never contains the
separator) are provable.  A path string is split on the separator character;
empty components and the current-directory component are dropped, mirroring
`Path::components`. -/

/-- Split a character list on a separator character; every separator occurrence
starts a new (possibly empty) piece, so no piece contains the separator. -/
def splitSep (sep : Char) : List Char → List (List Char)
  | [] => [[]]
  | c :: cs =>
    let r := splitSep sep cs
    if c = sep then [] :: r
    else (c :: r.headD []) :: r.tail

/-- The normal components of a path string, per `Path::components`: split on
the separator, dropping empty pieces and the current-directory piece. -/
def pathComponents (s : String) : List (List Char) :=
  (splitSep '/' s.toList).filter (fun c => !c.isEmpty && !(c == ['.']))

/-- Model of `Path::file_name`: the final normal component, unless it is the
parent-directory component `..` (then `None`), or there is no component. -/
def fileName (s : String) : Option (List Char) :=
  match (pathComponents s).getLast? with
  | none => none
  | some c => if c == ['.', '.'] then none else some c

/-! ## Plugin host function surface (crates/spyglass/src/plugin/exports.rs)

Each host function receives the result of deserializing the guest's request
from the sandbox's I/O stream (`wasi_read` / `wasi_read_string`); a failed
read is `none`.  The embedding records the observable behaviour of one call:
the outcome delivered to the guest, the log lines written, the file-system
copy destination attempted (for `sync_file`), and the enqueue work spawned
(for `enqueue`). -/

/-- Request record `{src, dst}` sent by the guest for a `sync_file` request
(`PluginMountRequest`). -/
structure PluginMountRequest where
  src : String
  dst : String
  deriving Repr, DecidableEq

/-- Request record `{urls}` sent by the guest for an `enqueue` request
(`PluginEnqueueRequest`). -/
structure PluginEnqueueRequest where
  urls : List String
  deriving Repr, DecidableEq

/-- What a host-function call delivers back across the trust boundary: normal
return, a guest-visible error, or a host panic.  The Rust host functions
return `()`; an embedding value other than `ok` would correspond to a trap or
error reaching the guest. -/
inductive CallOutcome where
  | ok : CallOutcome
  | guestError (msg : String) : CallOutcome
  | panicked : CallOutcome
  deriving Repr, DecidableEq

/-- Observable result of one plugin host-function call. -/
structure HostCall where
  outcome : CallOutcome
  logs : List String
  /-- Destination path (as components) of the attempted `fs::copy`, if any. -/
  attemptedWrite : Option (List (List Char)) := none
  /-- URLs handed off to the asynchronously spawned enqueue, if any. -/
  spawnedUrls : Option (List String) := none
  deriving Repr, DecidableEq

/-- Host function `plugin_log`: log the message tagged with the plugin's name; a failed read
is silently ignored. -/
def plugin_log (name : String) (read : Option String) : HostCall :=
  match read with
  | none => { outcome := .ok, logs := [] }
  | some msg => { outcome := .ok, logs := [name ++ ": " ++ msg] }

/-- Host function `plugin_sync_file`: on a readable request, take the *source* path's final
file-name component and attempt `fs::copy` to `data_dir.join(file_name)`;
a source with no file-name component is logged and nothing is written; a
failed copy is logged.  The guest-supplied `dst` field only appears in the
info log line.  `copyResult` is the environment's answer to the attempted
`fs::copy` (error text on failure). -/
def plugin_sync_file (dataDir : List (List Char)) (read : Option PluginMountRequest)
    (copyResult : Except String Unit) : HostCall :=
  match read with
  | none => { outcome := .ok, logs := [] }
  | some req =>
    let infoLog := "requesting access to folder: " ++ req.dst ++ ": " ++ req.src
    match fileName req.src with
    | some fname =>
      match copyResult with
      | .ok _ =>
        { outcome := .ok, logs := [infoLog]
          attemptedWrite := some (dataDir ++ [fname]) }
      | .error e =>
        { outcome := .ok
          logs := [infoLog, "Unable to copy into plugin data dir: " ++ e]
          attemptedWrite := some (dataDir ++ [fname]) }
    | none =>
      { outcome := .ok, logs := [infoLog, "Source must be a file: " ++ req.src] }

/-! ## Configuration (crates/shared/src/config.rs) -/

/-- Largest `u32` value; `Limit::Infinite` compares as this number. -/
def u32MAX : Nat := 2 ^ 32 - 1

/-- Crawl limit `Limit`: either no cap (`Infinite`) or a finite cap.  The payload models a
Rust `u32`, so meaningful values are below `2^32`. -/
inductive Limit where
  | Infinite : Limit
  | Finite (n : Nat) : Limit
  deriving Repr, DecidableEq

/-- Numeric view `Limit::value`: the number used in limit comparisons. -/
def Limit.value : Limit → Nat
  | .Infinite => u32MAX
  | .Finite v => v

/-- Settings record `UserSettings` exactly as declared in config.rs: the three limits, the
wizard flag, allow/block lists and the global shortcut. -/
structure UserSettings where
  domain_crawl_limit : Limit
  inflight_crawl_limit : Limit
  inflight_domain_limit : Limit
  run_wizard : Bool
  allow_list : List String
  block_list : List String
  shortcut : String
  deriving Repr, DecidableEq

/-- Default settings, `UserSettings::default` from config.rs. -/
def UserSettings.defaultSettings : UserSettings :=
  { domain_crawl_limit := .Finite 1000
    inflight_crawl_limit := .Finite 10
    inflight_domain_limit := .Finite 2
    run_wizard := false
    allow_list := []
    block_list := ["web.archive.org"]
    shortcut := "CmdOrCtrl+Shift+/" }

/-- A lens: named search/crawl scope (config.rs `Lens`). -/
structure Lens where
  name : String
  description : Option String
  domains : List String
  urls : List String
  version : String
  deriving Repr, DecidableEq

/-- The externally loaded configuration object (config.rs `Config`): user
settings plus the lens registry keyed by name. -/
structure Config where
  user_settings : UserSettings
  lenses : List (String × Lens)
  deriving Repr, DecidableEq

/-! ## URL model

Model of the external `url` crate's `Url::parse` / `host_str`, restricted to
what the handlers observe: parsing fails when the string has no
`scheme://` prefix with a syntactically plausible scheme; otherwise the
authority runs up to the first `/`, and `host_str()` is `none` when that
authority is empty. -/

/-- Host component view of a parsed URL. -/
structure ParsedUrl where
  scheme : String
  host : Option String
  deriving Repr, DecidableEq

/-- A plausible URL scheme: nonempty, starting with a letter, continuing with
letters, digits, `+`, `-` or `.`. -/
def isScheme : List Char → Bool
  | [] => false
  | c :: cs => c.isAlpha && cs.all (fun d => d.isAlphanum || d == '+' || d == '-' || d == '.')

/-- Split a character list at the first occurrence of `://`, returning the
part before and the part after, or `none` when `://` never occurs. -/
def splitSchemeAux : List Char → Option (List Char × List Char)
  | [] => none
  | c :: cs =>
    if c == ':' && cs.take 2 == ['/', '/'] then some ([], cs.drop 2)
    else
      match splitSchemeAux cs with
      | none => none
      | some (pre, post) => some (c :: pre, post)

/-- Model of `url::Url::parse` composed with `host_str()`. -/
def urlParse (s : String) : Option ParsedUrl :=
  match splitSchemeAux s.toList with
  | none => none
  | some (schemeCs, rest) =>
    if isScheme schemeCs then
      let authority := rest.takeWhile (fun c => c != '/')
      some { scheme := String.mk schemeCs
             host := if authority.isEmpty then none else some (String.mk authority) }
    else none

/-! ## Crawl-task store (crawl_queue table) -/

/-- Task status state machine. -/
inductive CrawlStatus where
  | Queued | Processing | Completed | Failed
  deriving Repr, DecidableEq

/-- Provenance of a task: normal API/crawler submission or plugin-originated. -/
inductive CrawlType where
  | Normal | Plugin
  deriving Repr, DecidableEq

/-- One row of the crawl_queue table (timestamps omitted). -/
structure CrawlTask where
  id : Nat
  domain : String
  url : String
  crawl_type : CrawlType
  status : CrawlStatus
  deriving Repr, DecidableEq

/-- The crawl-task table, in insertion order. -/
abbrev TaskStore := List CrawlTask

/-- Modelled from the spec: `num_queued` of the crawl_queue entity module
(crates/entities/src/models/crawl_queue.rs, not among the provided sources)
counts the tasks currently in the given status. -/
def num_queued (store : TaskStore) (status : CrawlStatus) : Nat :=
  (store.filter (fun t => t.status == status)).length

/-- Modelled from the spec: `enqueue_all` of the crawl_queue entity module
(crates/entities/src/models/crawl_queue.rs, not among the provided sources),
the Admission Controller's batch enqueue (spec §4.2): normalize each URL and
drop malformed entries; drop block-listed domains unless allow-listed; drop
URLs already present in any status (a uniqueness violation on insert is a
silent skip); drop domains at `domain_crawl_limit` counting all historical
tasks; insert the rest as `Queued`. -/
def enqueue_all (store : TaskStore) (urls : List String)
    (settings : UserSettings) (crawlType : CrawlType) : TaskStore :=
  urls.foldl (fun st u =>
    match urlParse u with
    | none => st
    | some parsed =>
      match parsed.host with
      | none => st
      | some host =>
        if settings.block_list.contains host && !settings.allow_list.contains host then st
        else if st.any (fun t => t.url == u) then st
        else if settings.domain_crawl_limit.value ≤
            (st.filter (fun t => t.domain == host)).length then st
        else st ++ [{ id := st.length, domain := host, url := u
                      crawl_type := crawlType, status := .Queued }]) store

/-! ## RPC handlers (crates/spyglass/src/api/route.rs) -/

/-- jsonrpc error codes used by the handlers. -/
inductive ErrorCode where
  | InternalError
  deriving Repr, DecidableEq

/-- Result of one RPC call, including the possibility that the handler
panicked (a Rust `unwrap` on an error value). -/
inductive RpcOutcome where
  | ok (v : String) : RpcOutcome
  | err (code : ErrorCode) (msg : String) : RpcOutcome
  | panicked : RpcOutcome
  deriving Repr, DecidableEq

/-- RPC handler `add_queue`: parse the URL with `.unwrap()` (panicking on a malformed
URL), take its host with `.unwrap()` (panicking on a host-less URL), and
insert a `Normal` `Queued` row directly; a database error — in particular the
uniqueness violation on a duplicate url, modelled from the spec's invariant
that `url` is unique across the table — is returned to the caller as an
`InternalError`. -/
def add_queue (store : TaskStore) (url : String) : RpcOutcome × TaskStore :=
  match urlParse url with
  | none => (.panicked, store)
  | some parsed =>
    match parsed.host with
    | none => (.panicked, store)
    | some host =>
      if store.any (fun t => t.url == url) then
        (.err .InternalError "UNIQUE constraint failed: crawl_queue.url", store)
      else
        (.ok "ok",
         store ++ [{ id := store.length, domain := host, url := url
                     crawl_type := .Normal, status := .Queued }])

/-- Host function `plugin_enqueue` (exports.rs): on a readable request, log the count and
spawn `enqueue_all` with no lenses and default overrides onto the runtime,
returning immediately; the spawned task's success or failure is only logged.
The returned store is the store after the spawned enqueue has run. -/
def plugin_enqueue (name : String) (read : Option PluginEnqueueRequest)
    (store : TaskStore) (settings : UserSettings) : HostCall × TaskStore :=
  match read with
  | none => ({ outcome := .ok, logs := [] }, store)
  | some req =>
    ({ outcome := .ok
       logs := [name ++ " enqueuing " ++ toString req.urls.length ++ " urls",
                "enqueue successful"]
       spawnedUrls := some req.urls },
     enqueue_all store req.urls settings .Normal)

/-- The `"paused"` entry of the shared `app_state` map: a *string* flag,
`"true"` when paused. -/
structure AppStateMap where
  paused : String
  deriving Repr, DecidableEq

/-- Response record `AppStatus`. -/
structure AppStatus where
  num_docs : Nat
  num_queued : Nat
  num_in_progress : Nat
  is_paused : Bool
  deriving Repr, DecidableEq

/-- Status snapshot `_get_current_status`: queued and in-flight counts from the store, the
paused flag from the shared map, with the in-flight count forced to 0 while
paused.  `numDocs` is the external index reader's document count. -/
def _get_current_status (store : TaskStore) (numDocs : Nat)
    (appMap : AppStateMap) : AppStatus :=
  let nQueued := num_queued store .Queued
  let nProgress := num_queued store .Processing
  let isPaused := appMap.paused == "true"
  { num_docs := numDocs
    num_queued := nQueued
    num_in_progress := if isPaused then 0 else nProgress
    is_paused := isPaused }

/-- RPC handler `toggle_pause`: read the `"paused"` string flag, write back the negated
boolean's string form, then report `_get_current_status`. -/
def toggle_pause (store : TaskStore) (numDocs : Nat)
    (appMap : AppStateMap) : AppStatus × AppStateMap :=
  let current := appMap.paused == "true"
  let updated : AppStateMap := { paused := toString (!current) }
  (_get_current_status store numDocs updated, updated)

/-- A `search_lenses` result entry. -/
structure LensResult where
  title : String
  description : String
  deriving Repr, DecidableEq

/-- RPC handler `search_lenses`: walk the lens registry, keeping every lens whose name
starts with the query, pairing the name with its description (empty string
when absent). -/
def search_lenses (lenses : List (String × Lens)) (query : String) : List LensResult :=
  lenses.foldl (fun results entry =>
    if entry.1.startsWith query then
      results ++ [{ title := entry.1
                    description := entry.2.description.getD "" }]
    else results) []

/-! ## AppState construction (crates/spyglass/src/state.rs) -/

/-- The process-wide state built by `AppState::new` (database connection,
index handle and plugin channel omitted as external capabilities). -/
structure AppState where
  app_state : AppStateMap
  lenses : List (String × Lens)
  user_settings : UserSettings
  deriving Repr, DecidableEq

/-- Constructor `AppState::new`: inserts `"paused" -> "false"` into the shared map
unconditionally, copies the lens registry and the user settings from the
config. -/
def AppState.new (config : Config) : AppState :=
  { app_state := { paused := "false" }
    lenses := config.lenses
    user_settings := config.user_settings }

/-- A path (as components) lies directly inside the directory `dir`: it is
`dir` extended by one final component that is a genuine bare file name — it
contains no separator and is not `..`, `.` or empty. -/
def withinDir (dir p : List (List Char)) : Prop :=
  ∃ c, p = dir ++ [c] ∧ '/' ∉ c ∧ c ≠ ['.', '.'] ∧ c ≠ ['.'] ∧ c ≠ []

/-! ## Path lemmas -/

theorem splitSep_ne_nil (sep : Char) (l : List Char) : splitSep sep l ≠ [] := by
  induction l with
  | nil => simp [splitSep]
  | cons c cs ih => simp only [splitSep]; split <;> simp

theorem sep_not_mem_of_mem_splitSep (sep : Char) (l : List Char) :
    ∀ p ∈ splitSep sep l, sep ∉ p := by
  induction l with
  | nil =>
    intro p hp
    simp only [splitSep, List.mem_singleton] at hp
    subst hp; simp
  | cons c cs ih =>
    intro p hp
    simp only [splitSep] at hp
    by_cases h : c = sep
    · rw [if_pos h] at hp
      rcases List.mem_cons.mp hp with h1 | h2
      · subst h1; simp
      · exact ih p h2
    · rw [if_neg h] at hp
      obtain ⟨hd, tl, heq⟩ := List.exists_cons_of_ne_nil (splitSep_ne_nil sep cs)
      rw [heq] at hp
      simp only [List.headD_cons, List.tail_cons] at hp
      rcases List.mem_cons.mp hp with h1 | h2
      · subst h1
        intro hmem
        rcases List.mem_cons.mp hmem with h3 | h4
        · exact h h3.symm
        · exact ih hd (heq ▸ List.mem_cons_self hd tl) h4
      · exact ih p (heq ▸ List.mem_cons_of_mem hd h2)

/-- Every file name produced by `fileName` is a bare name: separator-free and
none of `..`, `.`, the empty component. -/
theorem fileName_bare {s : String} {c : List Char} (h : fileName s = some c) :
    '/' ∉ c ∧ c ≠ ['.', '.'] ∧ c ≠ ['.'] ∧ c ≠ [] := by
  unfold fileName at h
  cases hg : (pathComponents s).getLast? with
  | none => rw [hg] at h; exact absurd h (by simp)
  | some d =>
    rw [hg] at h
    have h2 : (if (d == ['.', '.']) = true then none else some d) = some c := h
    by_cases hdd : (d == ['.', '.']) = true
    · rw [if_pos hdd] at h2; exact absurd h2 (by simp)
    · rw [if_neg hdd] at h2
      have hcd : d = c := Option.some.inj h2
      subst hcd
      have hmem : d ∈ pathComponents s := List.mem_of_getLast?_eq_some hg
      unfold pathComponents at hmem
      have hfil := List.mem_filter.mp hmem
      obtain ⟨hsplit, hcond⟩ := hfil
      have hsep : '/' ∉ d := sep_not_mem_of_mem_splitSep '/' s.toList d hsplit
      simp only [Bool.and_eq_true] at hcond
      refine ⟨hsep, ?_, ?_, ?_⟩
      · intro hEq; exact hdd (by simp [hEq])
      · intro hEq
        subst hEq
        simp at hcond
      · intro hEq
        subst hEq
        simp at hcond

/-! ## Claim C1 -/

/-- Claim C1, counterexample: a `sync_file` request whose destination name
`"../evil"` contains the path-separator character is *not* rejected — the
host ignores the destination field and still attempts the copy (into the
plugin data directory, under the source's file name) with a normal outcome. -/
theorem sync_file_separator_dst_not_rejected :
    ("../evil".toList.contains '/') = true ∧
    (plugin_sync_file [String.toList "plugins", String.toList "myplugin"]
        (some { src := "/tmp/data.txt", dst := "../evil" }) (.ok ())).attemptedWrite =
      some [String.toList "plugins", String.toList "myplugin", String.toList "data.txt"] ∧
    (plugin_sync_file [String.toList "plugins", String.toList "myplugin"]
        (some { src := "/tmp/data.txt", dst := "../evil" }) (.ok ())).outcome = .ok := by
  decide

/-- Claim C1 (amended): the destination name of a `sync_file` request is
ignored rather than validated, so a destination containing a path separator
is not rejected; nevertheless every file write the host ever attempts lands
directly inside the plugin's own data directory, under a bare file-name
component taken from the source path. -/
theorem sync_file_write_within_data_dir
    (dataDir : List (List Char)) (read : Option PluginMountRequest)
    (copyResult : Except String Unit) (p : List (List Char))
    (h : (plugin_sync_file dataDir read copyResult).attemptedWrite = some p) :
    withinDir dataDir p := by
  cases read with
  | none => exact absurd h (by simp [plugin_sync_file])
  | some req =>
    cases hf : fileName req.src with
    | none => simp [plugin_sync_file, hf] at h
    | some c =>
      obtain ⟨h1, h2, h3, h4⟩ := fileName_bare hf
      cases copyResult with
      | ok u =>
        simp only [plugin_sync_file, hf, Option.some.injEq] at h
        exact ⟨c, h.symm, h1, h2, h3, h4⟩
      | error e =>
        simp only [plugin_sync_file, hf, Option.some.injEq] at h
        exact ⟨c, h.symm, h1, h2, h3, h4⟩

/-- Claim C1 witness: a concrete well-formed request writes exactly
`plugins/myplugin/data.txt`, which is within the data directory. -/
theorem sync_file_write_within_data_dir_witness :
    (plugin_sync_file [String.toList "plugins", String.toList "myplugin"]
        (some { src := "/tmp/notes/data.txt", dst := "data.txt" }) (.ok ())).attemptedWrite =
      some [String.toList "plugins", String.toList "myplugin", String.toList "data.txt"] ∧
    withinDir [String.toList "plugins", String.toList "myplugin"]
      [String.toList "plugins", String.toList "myplugin", String.toList "data.txt"] :=
  ⟨by decide,
   sync_file_write_within_data_dir [String.toList "plugins", String.toList "myplugin"]
     (some { src := "/tmp/notes/data.txt", dst := "data.txt" }) (.ok ())
     [String.toList "plugins", String.toList "myplugin", String.toList "data.txt"]
     (by decide)⟩

/-! ## Claim C10 -/

/-- Claim C10: when the source path has a final file-name component, the file
written inside the plugin data directory is named by exactly that component;
the guest-supplied destination name never influences the write target — two
requests differing only in destination (and in copy result) attempt the very
same write. -/
theorem sync_file_uses_src_file_name
    (dataDir : List (List Char)) (src dst dst' : String)
    (cr cr' : Except String Unit) (c : List Char)
    (h : fileName src = some c) :
    (plugin_sync_file dataDir (some { src := src, dst := dst }) cr).attemptedWrite =
      some (dataDir ++ [c]) ∧
    (plugin_sync_file dataDir (some { src := src, dst := dst }) cr).attemptedWrite =
      (plugin_sync_file dataDir (some { src := src, dst := dst' }) cr').attemptedWrite := by
  cases cr <;> cases cr' <;> simp [plugin_sync_file, h]

/-- Claim C10 witness: concrete request whose source is `/tmp/data.txt`; the
written name is `data.txt`, independent of the destination field. -/
theorem sync_file_uses_src_file_name_witness :
    fileName "/tmp/data.txt" = some (String.toList "data.txt") ∧
    (plugin_sync_file [String.toList "pdir"]
        (some { src := "/tmp/data.txt", dst := "renamed.bin" }) (.ok ())).attemptedWrite =
      some ([String.toList "pdir"] ++ [String.toList "data.txt"]) ∧
    (plugin_sync_file [String.toList "pdir"]
        (some { src := "/tmp/data.txt", dst := "renamed.bin" }) (.ok ())).attemptedWrite =
      (plugin_sync_file [String.toList "pdir"]
        (some { src := "/tmp/data.txt", dst := "../other" }) (.error "denied")).attemptedWrite :=
  ⟨by decide,
   (sync_file_uses_src_file_name [String.toList "pdir"] "/tmp/data.txt" "renamed.bin"
     "../other" (.ok ()) (.error "denied") (String.toList "data.txt") (by decide)).1,
   (sync_file_uses_src_file_name [String.toList "pdir"] "/tmp/data.txt" "renamed.bin"
     "../other" (.ok ()) (.error "denied") (String.toList "data.txt") (by decide)).2⟩

/-! ## Claim C3 -/

/-- Enqueueing a batch in which every URL is malformed leaves the task store
unchanged: each malformed entry is dropped by the admission policy. -/
theorem enqueue_all_all_malformed (urls : List String) :
    ∀ (store : TaskStore) (settings : UserSettings) (ct : CrawlType),
      (∀ u ∈ urls, urlParse u = none) →
      enqueue_all store urls settings ct = store := by
  induction urls with
  | nil => intro store settings ct _; rfl
  | cons u rest ih =>
    intro store settings ct hmal
    have hu : urlParse u = none := hmal u (List.mem_cons_self u rest)
    have hrest : ∀ v ∈ rest, urlParse v = none :=
      fun v hv => hmal v (List.mem_cons_of_mem u hv)
    have step : enqueue_all store (u :: rest) settings ct =
        enqueue_all store rest settings ct := by
      simp [enqueue_all, hu]
    rw [step]
    exact ih store settings ct hrest

/-- Claim C3, counterexample: an unreadable request is a sandbox-boundary
failure that degrades to a no-op with *no* log line — `plugin_log` (and
likewise the other host functions) writes nothing at all when the read
fails, so the failure does not come with a log line as claimed. -/
theorem host_call_unreadable_request_no_log :
    (plugin_log "my-plugin" none).logs = [] ∧
    (plugin_log "my-plugin" none).outcome = .ok ∧
    (plugin_sync_file [String.toList "plugins"] none (.ok ())).logs = [] ∧
    (plugin_enqueue "my-plugin" none [] UserSettings.defaultSettings).1.logs = [] := by
  decide

/-- Claim C3 (amended): every call to any plugin host function — `enqueue`,
`log`, `sync_file` — returns the normal outcome to the guest, for every
readable or unreadable request and whatever the contained data; no panic and
no guest-visible error is ever produced.  Failures inside a readable request
degrade to a no-op plus a log line: a `sync_file` source without a file-name
component writes nothing and logs the rejection, a failed copy logs the copy
error, and an `enqueue` batch of exclusively malformed URLs leaves the store
unchanged while still producing log output.  (An unreadable request is
silently ignored with no log line.) -/
theorem host_calls_return_ok :
    (∀ (name : String) (read : Option String), (plugin_log name read).outcome = .ok) ∧
    (∀ (dataDir : List (List Char)) (read : Option PluginMountRequest)
        (cr : Except String Unit), (plugin_sync_file dataDir read cr).outcome = .ok) ∧
    (∀ (name : String) (read : Option PluginEnqueueRequest) (store : TaskStore)
        (settings : UserSettings), (plugin_enqueue name read store settings).1.outcome = .ok) ∧
    (∀ (store : TaskStore) (settings : UserSettings) (urls : List String),
      (∀ u ∈ urls, urlParse u = none) →
      enqueue_all store urls settings .Normal = store) ∧
    (∀ (dataDir : List (List Char)) (req : PluginMountRequest) (cr : Except String Unit),
      fileName req.src = none →
      (plugin_sync_file dataDir (some req) cr).attemptedWrite = none ∧
      ("Source must be a file: " ++ req.src) ∈ (plugin_sync_file dataDir (some req) cr).logs) ∧
    (∀ (dataDir : List (List Char)) (req : PluginMountRequest) (e : String) (c : List Char),
      fileName req.src = some c →
      ("Unable to copy into plugin data dir: " ++ e) ∈
        (plugin_sync_file dataDir (some req) (.error e)).logs) ∧
    (∀ (name : String) (req : PluginEnqueueRequest) (store : TaskStore)
        (settings : UserSettings),
      (∀ u ∈ req.urls, urlParse u = none) →
      (plugin_enqueue name (some req) store settings).2 = store ∧
      (plugin_enqueue name (some req) store settings).1.logs ≠ []) := by
  refine ⟨?_, ?_, ?_, ?_, ?_, ?_, ?_⟩
  · intro name read
    cases read <;> rfl
  · intro dataDir read cr
    cases read with
    | none => rfl
    | some req =>
      cases hf : fileName req.src with
      | none => simp [plugin_sync_file, hf]
      | some c => cases cr <;> simp [plugin_sync_file, hf]
  · intro name read store settings
    cases read <;> rfl
  · intro store settings urls h
    exact enqueue_all_all_malformed urls store settings .Normal h
  · intro dataDir req cr h
    constructor <;> simp [plugin_sync_file, h]
  · intro dataDir req e c h
    simp [plugin_sync_file, h]
  · intro name req store settings h
    constructor
    · simpa [plugin_enqueue] using
        enqueue_all_all_malformed req.urls store settings .Normal h
    · simp [plugin_enqueue]

/-- Claim C3 witness: concrete calls — an unreadable log request, a sync
request whose source `"/"` has no file-name component (rejected with a log
line and no write), a sync request whose copy fails (copy error logged), and
an enqueue request carrying three malformed URLs (store untouched, log output
produced) — all return the normal outcome. -/
theorem host_calls_return_ok_witness :
    (plugin_log "my-plugin" none).outcome = .ok ∧
    (plugin_sync_file [String.toList "plugins"]
      (some { src := "/tmp/a.txt", dst := "a.txt" }) (.error "denied")).outcome = .ok ∧
    (plugin_enqueue "my-plugin" (some { urls := ["not a url", "", "::"] })
      [] UserSettings.defaultSettings).1.outcome = .ok ∧
    enqueue_all [] ["not a url", "", "::"] UserSettings.defaultSettings .Normal = [] ∧
    ((plugin_sync_file [String.toList "plugins"]
        (some { src := "/", dst := "a.txt" }) (.ok ())).attemptedWrite = none ∧
      ("Source must be a file: " ++ "/") ∈
        (plugin_sync_file [String.toList "plugins"]
          (some { src := "/", dst := "a.txt" }) (.ok ())).logs) ∧
    ("Unable to copy into plugin data dir: " ++ "denied") ∈
      (plugin_sync_file [String.toList "plugins"]
        (some { src := "/tmp/a.txt", dst := "a.txt" }) (.error "denied")).logs ∧
    ((plugin_enqueue "my-plugin" (some { urls := ["not a url", "", "::"] })
        [] UserSettings.defaultSettings).2 = [] ∧
      (plugin_enqueue "my-plugin" (some { urls := ["not a url", "", "::"] })
        [] UserSettings.defaultSettings).1.logs ≠ []) :=
  ⟨host_calls_return_ok.1 "my-plugin" none,
   host_calls_return_ok.2.1 [String.toList "plugins"]
     (some { src := "/tmp/a.txt", dst := "a.txt" }) (.error "denied"),
   host_calls_return_ok.2.2.1 "my-plugin" (some { urls := ["not a url", "", "::"] })
     [] UserSettings.defaultSettings,
   host_calls_return_ok.2.2.2.1 [] UserSettings.defaultSettings
     ["not a url", "", "::"] (by decide),
   host_calls_return_ok.2.2.2.2.1 [String.toList "plugins"]
     { src := "/", dst := "a.txt" } (.ok ()) (by decide),
   host_calls_return_ok.2.2.2.2.2.1 [String.toList "plugins"]
     { src := "/tmp/a.txt", dst := "a.txt" } "denied" (String.toList "a.txt") (by decide),
   host_calls_return_ok.2.2.2.2.2.2 "my-plugin" { urls := ["not a url", "", "::"] }
     [] UserSettings.defaultSettings (by decide)⟩

/-! ## Claim C2 -/

/-- Claim C2, counterexample: re-submitting a URL already present in the
store (here in `Completed` status) through the single-URL `add_queue` RPC
inserts no new row but returns an `InternalError` to the caller — the
uniqueness violation is surfaced as an error, not silently skipped. -/
theorem add_queue_duplicate_errors :
    add_queue [{ id := 0, domain := "example.com", url := "https://example.com/page",
                 crawl_type := .Normal, status := .Completed }]
        "https://example.com/page" =
      (.err .InternalError "UNIQUE constraint failed: crawl_queue.url",
       [{ id := 0, domain := "example.com", url := "https://example.com/page",
          crawl_type := .Normal, status := .Completed }]) := by
  decide

/-- Claim C2 (amended): for every URL already present in the store in any
status, re-submission inserts no new row on either path; the batch
`enqueue_all` path silently skips the duplicate, but the single-URL
`add_queue` RPC surfaces the uniqueness violation to the caller as an
`InternalError` rather than treating it as a silent skip. -/
theorem add_queue_duplicate_no_row_but_error
    (store : TaskStore) (url : String) (p : ParsedUrl) (host : String)
    (hp : urlParse url = some p) (hh : p.host = some host)
    (hdup : store.any (fun t => t.url == url) = true) :
    add_queue store url =
      (.err .InternalError "UNIQUE constraint failed: crawl_queue.url", store) ∧
    ∀ (settings : UserSettings) (ct : CrawlType),
      enqueue_all store [url] settings ct = store := by
  constructor
  · simp [add_queue, hp, hh, hdup]
  · intro settings ct
    simp only [enqueue_all, List.foldl_cons, List.foldl_nil, hp, hh]
    split
    · rfl
    · simp [hdup]

/-- Claim C2 witness: a concrete store holding `https://example.com/page` in
`Completed` status; re-submitting it errors on `add_queue` and is skipped by
`enqueue_all`, with the store unchanged both times. -/
theorem add_queue_duplicate_no_row_but_error_witness :
    add_queue [{ id := 0, domain := "example.com", url := "https://example.com/page",
                 crawl_type := .Normal, status := .Completed }]
        "https://example.com/page" =
      (.err .InternalError "UNIQUE constraint failed: crawl_queue.url",
       [{ id := 0, domain := "example.com", url := "https://example.com/page",
          crawl_type := .Normal, status := .Completed }]) ∧
    enqueue_all [{ id := 0, domain := "example.com", url := "https://example.com/page",
                   crawl_type := .Normal, status := .Completed }]
        ["https://example.com/page"] UserSettings.defaultSettings .Normal =
      [{ id := 0, domain := "example.com", url := "https://example.com/page",
         crawl_type := .Normal, status := .Completed }] :=
  ⟨(add_queue_duplicate_no_row_but_error
      [{ id := 0, domain := "example.com", url := "https://example.com/page",
         crawl_type := .Normal, status := .Completed }]
      "https://example.com/page" { scheme := "https", host := some "example.com" }
      "example.com" (by decide) rfl (by decide)).1,
   (add_queue_duplicate_no_row_but_error
      [{ id := 0, domain := "example.com", url := "https://example.com/page",
         crawl_type := .Normal, status := .Completed }]
      "https://example.com/page" { scheme := "https", host := some "example.com" }
      "example.com" (by decide) rfl (by decide)).2 UserSettings.defaultSettings .Normal⟩

/-! ## Claim C4 -/

/-- Claim C4 (code bug): `add_queue` calls `Url::parse(..).unwrap()`, so a
malformed URL makes the handler panic instead of returning the structured
error the spec requires; a well-formed URL with a host is enqueued
normally. -/
theorem add_queue_malformed_url_panics :
    urlParse "not a url" = none ∧
    add_queue [] "not a url" = (.panicked, []) ∧
    add_queue [] "https://example.com/page" =
      (.ok "ok",
       [{ id := 0, domain := "example.com", url := "https://example.com/page",
          crawl_type := .Normal, status := .Queued }]) := by
  decide

/-! ## Claim C5 -/

/-- Claim C5: `toggle_pause` flips the paused flag, a second call restores
the original flag value, and after each call the reported `is_paused` field
of the returned app stats matches the flag's new value. -/
theorem toggle_pause_round_trip (store : TaskStore) (numDocs : Nat) (m : AppStateMap)
    (h : m.paused = "true" ∨ m.paused = "false") :
    ((toggle_pause store numDocs m).2.paused == "true") = !(m.paused == "true") ∧
    (toggle_pause store numDocs (toggle_pause store numDocs m).2).2.paused = m.paused ∧
    (toggle_pause store numDocs m).1.is_paused =
      ((toggle_pause store numDocs m).2.paused == "true") ∧
    (toggle_pause store numDocs (toggle_pause store numDocs m).2).1.is_paused =
      ((toggle_pause store numDocs (toggle_pause store numDocs m).2).2.paused == "true") := by
  obtain ⟨p⟩ := m
  rcases h with h | h <;> simp only at h <;> subst h <;>
    exact ⟨rfl, rfl, rfl, rfl⟩

/-- Claim C5 witness: starting unpaused with one queued task, toggling pauses
(flag `"true"`, stats paused), toggling again restores `"false"`. -/
theorem toggle_pause_round_trip_witness :
    ((toggle_pause [{ id := 0, domain := "a.com", url := "https://a.com/1",
                      crawl_type := .Normal, status := .Queued }] 3
        { paused := "false" }).2.paused == "true")
      = !(({ paused := "false" } : AppStateMap).paused == "true") ∧
    (toggle_pause [{ id := 0, domain := "a.com", url := "https://a.com/1",
                     crawl_type := .Normal, status := .Queued }] 3
      (toggle_pause [{ id := 0, domain := "a.com", url := "https://a.com/1",
                       crawl_type := .Normal, status := .Queued }] 3
        { paused := "false" }).2).2.paused
      = "false" :=
  ⟨(toggle_pause_round_trip [{ id := 0, domain := "a.com", url := "https://a.com/1",
                               crawl_type := .Normal, status := .Queued }] 3
      { paused := "false" } (Or.inr rfl)).1,
   (toggle_pause_round_trip [{ id := 0, domain := "a.com", url := "https://a.com/1",
                               crawl_type := .Normal, status := .Queued }] 3
      { paused := "false" } (Or.inr rfl)).2.1⟩

/-! ## Claim C6 -/

/-- Claim C6: whenever the paused flag is `"true"`, the reported in-flight
count is 0, regardless of how many tasks are actually in `Processing`. -/
theorem app_status_paused_forces_zero_inflight
    (store : TaskStore) (numDocs : Nat) (m : AppStateMap)
    (h : m.paused = "true") :
    (_get_current_status store numDocs m).num_in_progress = 0 ∧
    (_get_current_status store numDocs m).is_paused = true := by
  constructor <;> simp [_get_current_status, h]

/-- Claim C6 witness: a store with two tasks actually in `Processing` still
reports 0 in-flight while paused. -/
theorem app_status_paused_forces_zero_inflight_witness :
    num_queued [{ id := 0, domain := "a.com", url := "https://a.com/1",
                  crawl_type := .Normal, status := .Processing },
                { id := 1, domain := "b.com", url := "https://b.com/1",
                  crawl_type := .Normal, status := .Processing }] .Processing = 2 ∧
    (_get_current_status [{ id := 0, domain := "a.com", url := "https://a.com/1",
                            crawl_type := .Normal, status := .Processing },
                          { id := 1, domain := "b.com", url := "https://b.com/1",
                            crawl_type := .Normal, status := .Processing }] 5
      { paused := "true" }).num_in_progress = 0 :=
  ⟨by decide,
   (app_status_paused_forces_zero_inflight
      [{ id := 0, domain := "a.com", url := "https://a.com/1",
         crawl_type := .Normal, status := .Processing },
       { id := 1, domain := "b.com", url := "https://b.com/1",
         crawl_type := .Normal, status := .Processing }] 5 { paused := "true" } rfl).1⟩

/-! ## Claim C7 -/

/-- Claim C7: the number used in limit comparisons is `n` for `Finite n` and
the `u32` maximum for `Infinite`, so any count representable in `u32` passes
an `Infinite` limit — it imposes no cap. -/
theorem limit_value_characterization :
    (∀ n : Nat, (Limit.Finite n).value = n) ∧
    Limit.Infinite.value = u32MAX ∧
    (∀ c : Nat, c ≤ u32MAX → c ≤ Limit.Infinite.value) :=
  ⟨fun _ => rfl, rfl, fun _ hc => hc⟩

/-- Claim C7 witness: concrete limit values. -/
theorem limit_value_characterization_witness :
    (Limit.Finite 1000).value = 1000 ∧
    Limit.Infinite.value = u32MAX ∧
    123456 ≤ Limit.Infinite.value :=
  ⟨limit_value_characterization.1 1000,
   limit_value_characterization.2.1,
   limit_value_characterization.2.2 123456 (by decide)⟩

/-! ## Claim C8 -/

/-- Accumulator form of the `search_lenses` fold. -/
theorem search_lenses_foldl (q : String) (lenses : List (String × Lens)) :
    ∀ acc : List LensResult,
      (lenses.foldl (fun results entry =>
        if entry.1.startsWith q then
          results ++ [{ title := entry.1
                        description := entry.2.description.getD "" }]
        else results) acc) =
      acc ++ (lenses.filter (fun entry => entry.1.startsWith q)).map
        (fun entry => { title := entry.1
                        description := entry.2.description.getD "" }) := by
  induction lenses with
  | nil => intro acc; simp
  | cons e es ih =>
    intro acc
    by_cases he : e.1.startsWith q
    · simp [List.filter_cons, he, ih]
    · simp [List.filter_cons, he, ih]

/-- Claim C8: `search_lenses` returns exactly the registry entries whose lens
name starts with the query, in registry order, each as a (name, description)
pair with an absent description reported as the empty string. -/
theorem search_lenses_exact (lenses : List (String × Lens)) (query : String) :
    search_lenses lenses query =
      (lenses.filter (fun entry => entry.1.startsWith query)).map
        (fun entry => { title := entry.1
                        description := entry.2.description.getD "" }) := by
  simpa using search_lenses_foldl query lenses []

/-! ## Claim C9 -/

/-- Claim C9, counterexample: `UserSettings` carries no pause-at-start flag,
and the initial paused state is `"false"` no matter what the settings say —
here two configs whose settings differ in every limit, both lists and the
wizard flag still both start unpaused. -/
theorem initial_pause_independent_of_settings :
    (AppState.new { user_settings := UserSettings.defaultSettings,
                    lenses := [] }).app_state.paused = "false" ∧
    (AppState.new { user_settings :=
        { domain_crawl_limit := .Infinite
          inflight_crawl_limit := .Infinite
          inflight_domain_limit := .Infinite
          run_wizard := true
          allow_list := ["a.com"]
          block_list := []
          shortcut := "" }, lenses := [] }).app_state.paused = "false" ∧
    ({ domain_crawl_limit := .Infinite
       inflight_crawl_limit := .Infinite
       inflight_domain_limit := .Infinite
       run_wizard := true
       allow_list := ["a.com"]
       block_list := []
       shortcut := "" } : UserSettings) ≠ UserSettings.defaultSettings := by
  decide

/-- Claim C9 (amended): `UserSettings` consists of the three `Limit` values,
the allow/block lists, the wizard flag and the shortcut — no pause-at-start
flag — and `AppState::new` copies the settings and lens registry into the
runtime while hard-coding the initial paused state to `"false"`, independent
of the configuration. -/
theorem app_state_new_always_unpaused :
    ∀ config : Config,
      (AppState.new config).app_state.paused = "false" ∧
      (AppState.new config).user_settings = config.user_settings ∧
      (AppState.new config).lenses = config.lenses :=
  fun _ => ⟨rfl, rfl, rfl⟩

end Spyglass
